import Mathlib

/-!
Verification of the resource-lifetime and command-sequencing layer of the
`sdl3::gpu` module (`src/sdl3/gpu/mod.rs`).

The Rust source wraps raw native GPU handles in reference-counted containers
(`Arc<BufferContainer>`, `Arc<TextureContainer>`, ...) holding a weak
back-reference to the owning `DeviceContainer`; dropping the last strong
reference runs the container's `Drop` impl, which issues one native release
call iff the weak device reference still upgrades.  Command buffers and
passes are thin wrappers over raw pointers whose fallible native calls are
surfaced (or not) as `Result`s.  The definitions below embed those parts of
the source; native calls are modelled by passing the native layer's response
(a pointer, with 0 standing for null, or a boolean status) as an explicit
argument, and the wrapper's behaviour is translated from the Rust body.
-/

namespace Sdl3Gpu

/-- An SDL error obtained from `get_error()` (the platform's last-error
string). Its content is external to the wrapper; we model it opaquely. -/
inductive SdlError where
  | err : SdlError
deriving DecidableEq, Repr

/-! ## Shared-ownership containers (Arc + weak device reference)

Each resource kind wraps its raw handle in a container struct
(`BufferContainer`, `ShaderContainer`, `SamplerContainer`,
`GraphicsPipelineContainer`, `TransferBufferContainer`, and the
`UserManaged` variant of `TextureContainer`).  All six `Drop` impls have the
same shape, e.g. `BufferContainer::drop` (src lines 1808-1817):

  if let Some(device) = self.device.upgrade() {
      unsafe { SDL_ReleaseGPUBuffer(device.0, self.raw); }
  }

We model the life of one shared resource as a trace of `Arc` operations:
`clone` (the derived `Clone` of `Buffer`/`Texture`/... just clones the `Arc`,
incrementing the strong count — no native call) and `drop` (decrements the
strong count; when the last strong reference is dropped, the container's
`Drop` impl runs).  The number of native release calls emitted by the final
drop is the container's drop effect. -/

/-- The six shared resource kinds of the module. -/
inductive ResourceKind where
  | buffer
  | texture
  | sampler
  | shader
  | graphicsPipeline
  | transferBuffer
deriving DecidableEq, Repr

/-- Number of native release calls emitted when the last strong reference to
a resource container is dropped, given whether the device weak reference
still upgrades.  Translated from the six `Drop` impls in the source
(`BufferContainer::drop`, `TextureContainer::drop` for `UserManaged`,
`SamplerContainer::drop`, `ShaderContainer::drop`,
`GraphicsPipelineContainer::drop`, `TransferBufferContainer::drop`): each
releases exactly once iff `self.device.upgrade()` returns `Some`. -/
def containerDropReleases : ResourceKind → Bool → Nat
  | .buffer, deviceAlive => if deviceAlive then 1 else 0
  | .texture, deviceAlive => if deviceAlive then 1 else 0
  | .sampler, deviceAlive => if deviceAlive then 1 else 0
  | .shader, deviceAlive => if deviceAlive then 1 else 0
  | .graphicsPipeline, deviceAlive => if deviceAlive then 1 else 0
  | .transferBuffer, deviceAlive => if deviceAlive then 1 else 0

/-- Ownership discipline of a `TextureContainer` (src lines 1041-1049): the
`UserManaged` variant holds a weak device reference; the `SdlManaged`
variant (swapchain textures, built by `Texture::new_sdl_managed`) holds only
the raw pointer. -/
inductive TextureOwnership where
  | userManaged
  | sdlManaged
deriving DecidableEq, Repr

/-- Native release calls emitted by `TextureContainer::drop`
(src lines 1058-1070): the `UserManaged` arm releases iff the device weak
reference upgrades; the `SdlManaged` arm falls into the `_ => {}` match arm
and performs no call at all. -/
def textureContainerDropReleases : TextureOwnership → Bool → Nat
  | .userManaged, deviceAlive => if deviceAlive then 1 else 0
  | .sdlManaged, _ => 0

/-- One operation on the shared handle: `clone` is the derived
`Clone::clone` (an `Arc` strong-count increment), `drop` is dropping one
handle value. -/
inductive ArcOp where
  | clone
  | drop
deriving DecidableEq, Repr

/-- Ghost state of one resource's `Arc`: the strong count and the number of
native release calls issued so far on its behalf. -/
structure ArcState where
  strong : Nat
  releases : Nat
deriving DecidableEq, Repr

/-- One step of the `Arc` life of a resource whose container emits
`effect` native release calls on final drop.  `Arc::clone` only increments
the strong count; dropping a handle decrements it, and dropping the last
handle additionally runs the container's `Drop` impl. -/
def arcStep (effect : Nat) (s : ArcState) : ArcOp → ArcState
  | .clone => { s with strong := s.strong + 1 }
  | .drop =>
    if s.strong = 1 then
      { strong := 0, releases := s.releases + effect }
    else
      { s with strong := s.strong - 1 }

/-- Run a trace of `Arc` operations. -/
def arcRun (effect : Nat) (s : ArcState) : List ArcOp → ArcState
  | [] => s
  | op :: t => arcRun effect (arcStep effect s op) t

/-- A trace is valid from strong count `n` when every operation happens
while at least one strong handle exists (one cannot clone or drop a handle
one does not hold). -/
def arcValidFrom (n : Nat) : List ArcOp → Bool
  | [] => true
  | op :: t =>
    decide (1 ≤ n) &&
      arcValidFrom (match op with | .clone => n + 1 | .drop => n - 1) t

/-- Number of `clone` operations in a trace. -/
def countClones : List ArcOp → Nat
  | [] => 0
  | .clone :: t => countClones t + 1
  | .drop :: t => countClones t

/-- Number of `drop` operations in a trace. -/
def countDrops : List ArcOp → Nat
  | [] => 0
  | .clone :: t => countDrops t
  | .drop :: t => countDrops t + 1

/-- The state of a freshly built resource handle: one strong reference
(the `Arc::new` in the builder's `build`), no release calls yet. -/
def freshArc : ArcState := { strong := 1, releases := 0 }

/-! ## CommandBuffer: receiver discipline

The operations available on one `CommandBuffer` value, with the receiver
mode of each method translated from its signature in the source.  Under
Rust move semantics a method taking `self` by value consumes the command
buffer (no later call on that value compiles); methods taking `&self` or
`&mut self` leave it usable. -/

/-- A method call recorded against one `CommandBuffer` value. -/
inductive CBOp where
  /-- `push_vertex_uniform_data(&self, ...)` (src 420) -/
  | pushVertexUniformData
  /-- `wait_and_acquire_swapchain_texture(&'a mut self, ...)` (src 432) -/
  | waitAndAcquireSwapchainTexture
  /-- `acquire_swapchain_texture(&'a mut self, ...)` (src 456) -/
  | acquireSwapchainTexture
  /-- `Device::begin_render_pass(&self, command_buffer: &CommandBuffer, ...)`
  (src 1721): borrows the command buffer immutably -/
  | beginRenderPassOn
  /-- `Device::begin_copy_pass(&self, command_buffer: &CommandBuffer)`
  (src 1754): borrows the command buffer immutably -/
  | beginCopyPassOn
  /-- `submit(self)` (src 480): takes the receiver by value -/
  | submit
  /-- `cancel(&mut self)` (src 489): takes the receiver by mutable borrow -/
  | cancel
deriving DecidableEq, Repr

/-- Whether the operation consumes (moves out of) the `CommandBuffer`
value, read off the receiver of each method in the source: only `submit`
takes `self` by value. -/
def CBOp.consumes : CBOp → Bool
  | .submit => true
  | _ => false

/-- Whether a sequence of method calls on one `CommandBuffer` value is
representable in the source's type discipline: once an operation has
consumed the value, no further call on it compiles. -/
def representable : List CBOp → Bool
  | [] => true
  | op :: t => if op.consumes then t.isEmpty else representable t

/-! ## Pass lifecycle

`Device::begin_render_pass` (src 1721-1744) and `Device::begin_copy_pass`
(src 1754-1761) take the command buffer by shared reference, forward to the
native begin call, and return `Ok` exactly when the returned pass pointer
is non-null; they consult no recording state.  `end_render_pass` /
`end_copy_pass` consume the pass value and forward to the native end call.
`PassGhostState` is ghost instrumentation counting the passes begun and not
yet ended on one command buffer, so that "a pass is already open" is
expressible; the wrapper functions never read it. -/

/-- Wraps the raw `*mut SDL_GPURenderPass` (0 models null). -/
structure RenderPass where
  inner : Nat
deriving DecidableEq, Repr

/-- Wraps the raw `*mut SDL_GPUCopyPass` (0 models null). -/
structure CopyPass where
  inner : Nat
deriving DecidableEq, Repr

/-- Ghost state: number of passes begun and not yet ended on one command
buffer. -/
structure PassGhostState where
  openPasses : Nat
deriving DecidableEq, Repr

/-- `Device::begin_render_pass`: returns `Ok(RenderPass)` iff the native
`SDL_BeginGPURenderPass` call returned a non-null pointer (`nativePass`,
with `none` for null); the ghost count records one more open pass.  The
source performs no check of the command buffer's pass state. -/
def begin_render_pass (s : PassGhostState) (nativePass : Option Nat) :
    Except SdlError (RenderPass × PassGhostState) :=
  match nativePass with
  | some p => .ok (⟨p⟩, ⟨s.openPasses + 1⟩)
  | none => .error .err

/-- `Device::end_render_pass`: consumes the pass and forwards to
`SDL_EndGPURenderPass`; one fewer open pass. -/
def end_render_pass (s : PassGhostState) (_pass : RenderPass) : PassGhostState :=
  ⟨s.openPasses - 1⟩

/-- `Device::begin_copy_pass`: returns `Ok(CopyPass)` iff the native
`SDL_BeginGPUCopyPass` call returned a non-null pointer; no state check. -/
def begin_copy_pass (s : PassGhostState) (nativePass : Option Nat) :
    Except SdlError (CopyPass × PassGhostState) :=
  match nativePass with
  | some p => .ok (⟨p⟩, ⟨s.openPasses + 1⟩)
  | none => .error .err

/-- `Device::end_copy_pass`: consumes the pass and forwards to
`SDL_EndGPUCopyPass`. -/
def end_copy_pass (s : PassGhostState) (_pass : CopyPass) : PassGhostState :=
  ⟨s.openPasses - 1⟩

/-! ## TransferBuffer, mapping, builders -/

/-- `TransferBuffer` (src 1923-1927): raw native handle plus the byte
length stored by the builder. -/
structure TransferBuffer where
  raw : Nat
  len : Nat
deriving DecidableEq, Repr

/-- `BufferMemMap` (src 1878-1883): the mapped view.  `mem` is the raw
`*mut T` (0 models null); `transferBufferLen` stands for
`self.transfer_buffer.len()`, the byte length consulted by `mem`/`mem_mut`. -/
structure BufferMemMap where
  transferBufferLen : Nat
  mem : Nat
deriving DecidableEq, Repr

/-- `TransferBuffer::map` (src 1934-1941): builds a `BufferMemMap` whose
`mem` field is exactly the result of the native `SDL_MapGPUTransferBuffer`
call cast to `*mut T`.  There is no null check and no error path: the
return type is the view itself, not a `Result`. -/
def TransferBuffer.map (tb : TransferBuffer) (nativeMapResult : Nat) :
    BufferMemMap :=
  { transferBufferLen := tb.len, mem := nativeMapResult }

/-- Rust `usize` division: `a / b` panics when `b = 0` (there is no
wrapping or defaulting for a zero divisor); `none` models the panic. -/
def rustUsizeDiv (a b : Nat) : Option Nat :=
  if b = 0 then none else some (a / b)

/-- Length of the slice returned by `BufferMemMap::mem` (src 1890-1893):
`count = self.transfer_buffer.len() as usize / std::mem::size_of::<T>()`
followed by `slice::from_raw_parts(self.mem, count)`.  `sizeT` stands for
`size_of::<T>()`. -/
def BufferMemMap.memSliceLen (m : BufferMemMap) (sizeT : Nat) : Option Nat :=
  rustUsizeDiv m.transferBufferLen sizeT

/-- Length of the slice returned by `BufferMemMap::mem_mut`
(src 1896-1899): the same count, via `slice::from_raw_parts_mut`. -/
def BufferMemMap.memMutSliceLen (m : BufferMemMap) (sizeT : Nat) : Option Nat :=
  rustUsizeDiv m.transferBufferLen sizeT

/-- `Buffer` (src 1819-1824): raw native handle plus the byte length
stored by the builder. -/
structure Buffer where
  raw : Nat
  len : Nat
deriving DecidableEq, Repr

/-- `SDL_GPUBufferCreateInfo`: the fields the builder writes (`usage` kept
as its `u32` encoding). -/
structure SDL_GPUBufferCreateInfo where
  usage : Nat := 0
  size : Nat := 0
deriving DecidableEq, Repr

/-- `BufferBuilder` (src 1838-1841), as produced by
`Device::create_buffer` with a defaulted create-info. -/
structure BufferBuilder where
  inner : SDL_GPUBufferCreateInfo := {}
deriving DecidableEq, Repr

/-- `Device::create_buffer` (src 1665-1670). -/
def create_buffer : BufferBuilder := { inner := {} }

/-- `BufferBuilder::with_usage` (src 1843-1846). -/
def BufferBuilder.with_usage (b : BufferBuilder) (value : Nat) : BufferBuilder :=
  { b with inner := { b.inner with usage := value } }

/-- `BufferBuilder::with_size` (src 1848-1851). -/
def BufferBuilder.with_size (b : BufferBuilder) (value : Nat) : BufferBuilder :=
  { b with inner := { b.inner with size := value } }

/-- `BufferBuilder::build` (src 1853-1866): `Err(get_error())` iff the
native `SDL_CreateGPUBuffer` call returned null (`none`); otherwise a
`Buffer` with `len: self.inner.size`. -/
def BufferBuilder.build (b : BufferBuilder) (nativeCreateResult : Option Nat) :
    Except SdlError Buffer :=
  match nativeCreateResult with
  | none => .error .err
  | some raw => .ok { raw := raw, len := b.inner.size }

/-- `SDL_GPUTransferBufferCreateInfo`: the fields the builder writes. -/
structure SDL_GPUTransferBufferCreateInfo where
  usage : Nat := 0
  size : Nat := 0
deriving DecidableEq, Repr

/-- `TransferBufferBuilder` (src 1949-1952), as produced by
`Device::create_transfer_buffer` with a defaulted create-info. -/
structure TransferBufferBuilder where
  inner : SDL_GPUTransferBufferCreateInfo := {}
deriving DecidableEq, Repr

/-- `Device::create_transfer_buffer` (src 1672-1677). -/
def create_transfer_buffer : TransferBufferBuilder := { inner := {} }

/-- `TransferBufferBuilder::with_usage` (src 1955-1958). -/
def TransferBufferBuilder.with_usage (b : TransferBufferBuilder)
    (value : Nat) : TransferBufferBuilder :=
  { b with inner := { b.inner with usage := value } }

/-- `TransferBufferBuilder::with_size` (src 1961-1964). -/
def TransferBufferBuilder.with_size (b : TransferBufferBuilder)
    (value : Nat) : TransferBufferBuilder :=
  { b with inner := { b.inner with size := value } }

/-- `TransferBufferBuilder::build` (src 1966-1979): `Err` iff the native
`SDL_CreateGPUTransferBuffer` call returned null; otherwise a
`TransferBuffer` with `len: self.inner.size`. -/
def TransferBufferBuilder.build (b : TransferBufferBuilder)
    (nativeCreateResult : Option Nat) : Except SdlError TransferBuffer :=
  match nativeCreateResult with
  | none => .error .err
  | some raw => .ok { raw := raw, len := b.inner.size }

/-! ## Surfacing of native outcomes

Each fallible wrapper is modelled as the function from the native call's
outcome to the caller-visible result. -/

/-- `CommandBuffer::submit` (src 480-486): `Ok(())` iff the native
`SDL_SubmitGPUCommandBuffer` call returned `true`, else the platform
error. -/
def submitResult (native : Bool) : Except SdlError Unit :=
  if native then .ok () else .error .err

/-- `CommandBuffer::cancel` (src 488-493): calls
`SDL_CancelGPUCommandBuffer` in statement position and returns `()`.  The
native call's boolean outcome is discarded: the caller sees the same unit
value whatever the native layer reported. -/
def cancelResult (_native : Bool) : Unit := ()

/-- `Device::acquire_command_buffer` (src 1648-1656): `Err` iff the native
call returned a null command-buffer pointer. -/
def acquireCommandBufferResult (native : Option Nat) : Except SdlError Nat :=
  match native with
  | none => .error .err
  | some raw => .ok raw

/-! ## ShaderFormat and the `enum_ops` bitwise operators

`ShaderFormat` (src 213-225) declares one variant per
`SDL_GPU_SHADERFORMAT_*` ABI constant of the bindings crate.  Those
constants are not in this module's source; their values are the SDL shader
format bit flags (INVALID = 0 and one distinct bit per format), matching
the spec's description of the device-creation flags argument as a "bitset
of enumerated values".  The `enum_ops` arm of `impl_with!` (src 60-73)
gives the enum `BitOr`/`BitAnd` impls that compute
`(self as u32) | (rhs as u32)` (resp. `&`) and `transmute` the integer
back to the enum type. -/

/-- The declared variants of `ShaderFormat` (src 215-224). -/
inductive ShaderFormat where
  | Invalid
  | Dxbc
  | Dxil
  | MetalLib
  | Msl
  | Private
  | SpirV
deriving DecidableEq, Repr

/-- The `u32` discriminant of each variant (`self as u32`), one SDL ABI
bit flag per format. -/
def ShaderFormat.toU32 : ShaderFormat → Nat
  | .Invalid => 0
  | .Private => 1
  | .SpirV => 2
  | .Dxbc => 4
  | .Dxil => 8
  | .Msl => 16
  | .MetalLib => 32

/-- The set of declared `ShaderFormat` discriminants: the only `u32`
values for which the transmute in the `enum_ops` operators is a defined
reinterpretation. -/
def shaderFormatDiscriminants : List Nat := [0, 1, 2, 4, 8, 16, 32]

/-- The integer computed by the generated `BitOr` impl before it is
transmuted back to `ShaderFormat`. -/
def ShaderFormat.bitorBits (a b : ShaderFormat) : Nat :=
  a.toU32 ||| b.toU32

/-- The integer computed by the generated `BitAnd` impl before it is
transmuted back to `ShaderFormat`. -/
def ShaderFormat.bitandBits (a b : ShaderFormat) : Nat :=
  a.toU32 &&& b.toU32

end Sdl3Gpu

namespace Sdl3Gpu

/-! ## Helper lemmas about the Arc trace model -/

theorem arcRun_clones_only (effect : Nat) :
    ∀ (m : Nat) (s : ArcState),
      arcRun effect s (List.replicate m ArcOp.clone) =
        { strong := s.strong + m, releases := s.releases } := by
  intro m
  induction m with
  | zero => intro s; simp [arcRun]
  | succ m ih =>
    intro s
    simp only [List.replicate_succ, arcRun, arcStep]
    rw [ih]
    simp
    omega

theorem arcRun_valid_closes (effect : Nat) :
    ∀ (t : List ArcOp) (n r : Nat),
      arcValidFrom n t = true → 1 ≤ n →
      n + countClones t = countDrops t →
      arcRun effect { strong := n, releases := r } t
        = { strong := 0, releases := r + effect } := by
  intro t
  induction t with
  | nil =>
    intro n r _ hn hcount
    simp [countClones, countDrops] at hcount
    omega
  | cons op t ih =>
    intro n r hv hn hcount
    cases op with
    | clone =>
      simp only [arcValidFrom, Bool.and_eq_true, decide_eq_true_eq] at hv
      simp only [countClones, countDrops] at hcount
      simp only [arcRun, arcStep]
      exact ih (n + 1) r hv.2 (by omega) (by omega)
    | drop =>
      simp only [arcValidFrom, Bool.and_eq_true, decide_eq_true_eq] at hv
      simp only [countClones, countDrops] at hcount
      simp only [arcRun, arcStep]
      by_cases h1 : n = 1
      · subst h1
        simp only [if_pos rfl]
        -- after the final drop the strong count is 0; validity forces the
        -- rest of the trace to be empty
        cases t with
        | nil => simp [arcRun]
        | cons op' t' =>
          exfalso
          simp [arcValidFrom] at hv
      · rw [if_neg h1]
        exact ih (n - 1) r hv.2 (by omega) (by omega)

/-! ## The claims -/

/-- C1: for every resource kind, cloning a handle `n` times performs no
native call (the releases counter stays 0 over any clone-only trace), and
any valid trace that clones `n` times and drops all `n + 1` handles, in
whatever order, ends with exactly one native release call when the device
is still alive. -/
theorem c1_clone_n_drop_all_releases_once (k : ResourceKind) (n : Nat)
    (t : List ArcOp)
    (hvalid : arcValidFrom 1 t = true)
    (hclones : countClones t = n)
    (hdrops : countDrops t = n + 1) :
    (arcRun (containerDropReleases k true) freshArc
        (List.replicate n ArcOp.clone)).releases = 0 ∧
    arcRun (containerDropReleases k true) freshArc t
      = { strong := 0, releases := 1 } := by
  constructor
  · rw [show freshArc = { strong := 1, releases := 0 } from rfl,
      arcRun_clones_only]
  · have h := arcRun_valid_closes (containerDropReleases k true) t 1 0
      hvalid (by omega) (by omega)
    rw [show freshArc = { strong := 1, releases := 0 } from rfl, h]
    cases k <;> simp [containerDropReleases]

/-- Witness for C1 at a concrete input: a buffer handle cloned once, both
handles then dropped. -/
theorem c1_witness :
    arcValidFrom 1 [ArcOp.clone, ArcOp.drop, ArcOp.drop] = true ∧
    ((arcRun (containerDropReleases ResourceKind.buffer true) freshArc
        (List.replicate 1 ArcOp.clone)).releases = 0 ∧
      arcRun (containerDropReleases ResourceKind.buffer true) freshArc
          [ArcOp.clone, ArcOp.drop, ArcOp.drop]
        = { strong := 0, releases := 1 }) :=
  ⟨by decide,
    c1_clone_n_drop_all_releases_once ResourceKind.buffer 1
      [ArcOp.clone, ArcOp.drop, ArcOp.drop] (by decide) (by decide) (by decide)⟩

/-- C2: for every resource kind, if the device has already been destroyed
(its weak reference no longer upgrades), dropping every outstanding handle
of a resource issues no native release call at all: teardown after device
death is a no-op, independent of order. -/
theorem c2_drop_after_device_death_is_noop (k : ResourceKind) (n : Nat)
    (t : List ArcOp)
    (hvalid : arcValidFrom 1 t = true)
    (hclones : countClones t = n)
    (hdrops : countDrops t = n + 1) :
    arcRun (containerDropReleases k false) freshArc t
      = { strong := 0, releases := 0 } := by
  have h := arcRun_valid_closes (containerDropReleases k false) t 1 0
    hvalid (by omega) (by omega)
  rw [show freshArc = { strong := 1, releases := 0 } from rfl, h]
  cases k <;> simp [containerDropReleases]

/-- Witness for C2 at a concrete input: a texture handle cloned twice and
all three handles dropped after the device died. -/
theorem c2_witness :
    arcValidFrom 1
        [ArcOp.clone, ArcOp.clone, ArcOp.drop, ArcOp.drop, ArcOp.drop]
      = true ∧
    arcRun (containerDropReleases ResourceKind.texture false) freshArc
        [ArcOp.clone, ArcOp.clone, ArcOp.drop, ArcOp.drop, ArcOp.drop]
      = { strong := 0, releases := 0 } :=
  ⟨by decide,
    c2_drop_after_device_death_is_noop ResourceKind.texture 2
      [ArcOp.clone, ArcOp.clone, ArcOp.drop, ArcOp.drop, ArcOp.drop]
      (by decide) (by decide) (by decide)⟩

/-- C3 counterexample: `CommandBuffer::cancel` takes `&mut self`, not
`self`, so it does not consume the command buffer.  A second `cancel`, and
a `submit` after a `cancel`, are both representable call sequences on the
same value — refuting the claim that both terminal operations consume the
value and that no operation is representable after either. -/
theorem c3_cex_cancel_not_consuming :
    CBOp.consumes CBOp.cancel = false ∧
    representable [CBOp.cancel, CBOp.cancel] = true ∧
    representable [CBOp.cancel, CBOp.submit] = true := by
  decide

/-- C3 amended: `submit` takes the `CommandBuffer` by value, so a call
sequence continuing after `submit` is unrepresentable (`submit` is callable
at most once and nothing can follow it); `cancel`, however, takes
`&mut self` and does not consume, so further operations — another
`cancel`, a `submit`, or any recording call — remain representable after
it. -/
theorem c3_submit_consumes_cancel_does_not (t : List CBOp)
    (h : representable (CBOp.submit :: t) = true) :
    t = [] ∧
    CBOp.consumes CBOp.submit = true ∧
    CBOp.consumes CBOp.cancel = false ∧
    representable [CBOp.cancel, CBOp.pushVertexUniformData] = true := by
  refine ⟨?_, rfl, rfl, rfl⟩
  simpa [representable, CBOp.consumes, List.isEmpty_iff] using h

/-- Witness for C3's amended theorem at the empty continuation. -/
theorem c3_witness :
    ([] : List CBOp) = [] ∧
    CBOp.consumes CBOp.submit = true ∧
    CBOp.consumes CBOp.cancel = false ∧
    representable [CBOp.cancel, CBOp.pushVertexUniformData] = true :=
  c3_submit_consumes_cancel_does_not [] (by decide)

/-- C4 counterexample: with one pass already open on the command buffer
(ghost count 1), `Device::begin_render_pass` succeeds whenever the native
call returns a non-null pass pointer — the wrapper neither fails on the
state violation nor makes the call unrepresentable, leaving two passes
open. -/
theorem c4_cex_second_begin_succeeds :
    begin_render_pass { openPasses := 1 } (some 7)
      = .ok (⟨7⟩, { openPasses := 2 }) := rfl

/-- C4 amended: the pass wrappers perform no pass-exclusivity check.
`begin_render_pass` and `begin_copy_pass` return `Ok` exactly when the
native call returns a non-null pointer, whatever the number of passes
already open on the command buffer; ending a pass consumes the pass value,
and a subsequent begin succeeds whenever its native call does. -/
theorem c4_begin_ignores_open_passes (s : PassGhostState)
    (nativePass : Option Nat) (p : RenderPass) (raw2 : Nat) :
    ((begin_render_pass s nativePass).isOk = nativePass.isSome) ∧
    ((begin_copy_pass s nativePass).isOk = nativePass.isSome) ∧
    ((begin_copy_pass (end_render_pass s p) (some raw2)).isOk = true) := by
  refine ⟨?_, ?_, rfl⟩ <;> cases nativePass <;>
    simp [begin_render_pass, begin_copy_pass, Except.isOk, Except.toBool]

/-- C5 counterexample: when the native `SDL_MapGPUTransferBuffer` call
returns null (0), `TransferBuffer::map` still hands back a `BufferMemMap`
whose pointer is null — no `MapError` is produced (the return type has no
error case at all). -/
theorem c5_cex_map_returns_null_view :
    (TransferBuffer.map { raw := 3, len := 256 } 0).mem = 0 := rfl

/-- C5 amended: `TransferBuffer::map` never fails and performs no null
check: the view it returns holds exactly the pointer the native map call
produced — null included — together with the buffer's byte length. -/
theorem c5_map_wraps_native_pointer (tb : TransferBuffer)
    (nativeMapResult : Nat) :
    (tb.map nativeMapResult).mem = nativeMapResult ∧
    (tb.map nativeMapResult).transferBufferLen = tb.len :=
  ⟨rfl, rfl⟩

/-- C6 counterexample: the native `SDL_CancelGPUCommandBuffer` call
returns a boolean status, but `CommandBuffer::cancel` discards it and
returns unit: the caller sees the same result for a failing native cancel
as for a succeeding one, so this fallible native call is downgraded to
silent success. -/
theorem c6_cex_cancel_outcome_discarded :
    cancelResult true = cancelResult false ∧ true ≠ false :=
  ⟨rfl, by decide⟩

/-- C6 amended: `submit`, `acquire_command_buffer`, the buffer builders
and the pass begins surface the native outcome as a typed result (`Ok`
exactly on native success), but `cancel` does not: its native boolean
outcome is discarded, every native outcome mapping to the same unit
result.  (`map` likewise reports no error; see C5.) -/
theorem c6_surfacing_except_cancel (b : Bool) (o : Option Nat)
    (bb : BufferBuilder) (tbb : TransferBufferBuilder)
    (s : PassGhostState) (b1 b2 : Bool) :
    ((submitResult b).isOk = b) ∧
    ((acquireCommandBufferResult o).isOk = o.isSome) ∧
    ((bb.build o).isOk = o.isSome) ∧
    ((tbb.build o).isOk = o.isSome) ∧
    ((begin_render_pass s o).isOk = o.isSome) ∧
    (cancelResult b1 = cancelResult b2) := by
  refine ⟨?_, ?_, ?_, ?_, ?_, rfl⟩
  · cases b <;> simp [submitResult, Except.isOk, Except.toBool]
  · cases o <;>
      simp [acquireCommandBufferResult, Except.isOk, Except.toBool]
  · cases o <;>
      simp [BufferBuilder.build, Except.isOk, Except.toBool]
  · cases o <;>
      simp [TransferBufferBuilder.build, Except.isOk, Except.toBool]
  · cases o <;>
      simp [begin_render_pass, Except.isOk, Except.toBool]

/-- C7: a swapchain texture (the `SdlManaged` variant built by
`Texture::new_sdl_managed`) is never released through the resource-release
path: over any valid trace of clones and drops that destroys every handle,
`TextureContainer::drop` issues zero native release calls, whether or not
the device is alive. -/
theorem c7_sdl_managed_texture_never_released (deviceAlive : Bool)
    (n : Nat) (t : List ArcOp)
    (hvalid : arcValidFrom 1 t = true)
    (hclones : countClones t = n)
    (hdrops : countDrops t = n + 1) :
    arcRun (textureContainerDropReleases TextureOwnership.sdlManaged deviceAlive)
        freshArc t
      = { strong := 0, releases := 0 } := by
  have h := arcRun_valid_closes
    (textureContainerDropReleases TextureOwnership.sdlManaged deviceAlive)
    t 1 0 hvalid (by omega) (by omega)
  rw [show freshArc = { strong := 1, releases := 0 } from rfl, h]
  simp [textureContainerDropReleases]

/-- Witness for C7 at a concrete input: a swapchain texture cloned once,
both handles dropped while the device is alive. -/
theorem c7_witness :
    arcValidFrom 1 [ArcOp.clone, ArcOp.drop, ArcOp.drop] = true ∧
    arcRun (textureContainerDropReleases TextureOwnership.sdlManaged true)
        freshArc [ArcOp.clone, ArcOp.drop, ArcOp.drop]
      = { strong := 0, releases := 0 } :=
  ⟨by decide,
    c7_sdl_managed_texture_never_released true 1
      [ArcOp.clone, ArcOp.drop, ArcOp.drop] (by decide) (by decide) (by decide)⟩

/-- C8 counterexample: for a zero-sized element type the count computation
`transfer_buffer.len() / size_of::<T>()` is a division by zero, which
panics in Rust — no slice of any length is produced, so the mapping does
not expose `L / size_of(T)` elements in that case. -/
theorem c8_cex_zero_sized_type_panics :
    BufferMemMap.memSliceLen { transferBufferLen := 256, mem := 5 } 0 = none ∧
    (none : Option Nat) ≠ some (256 / 0) := by
  decide

/-- C8 amended: for every element type of non-zero size, both the
read-only and the mutable slice of a mapping of a transfer buffer of byte
length `L` have exactly `L / size_of(T)` elements; for a zero-sized type
the count computation divides by zero and panics instead of producing a
slice. -/
theorem c8_slice_len_is_len_div_size (tb : TransferBuffer)
    (nativeMapResult sizeT : Nat) (h : 0 < sizeT) :
    ((tb.map nativeMapResult).memSliceLen sizeT = some (tb.len / sizeT)) ∧
    ((tb.map nativeMapResult).memMutSliceLen sizeT = some (tb.len / sizeT)) ∧
    ((tb.map nativeMapResult).memSliceLen 0 = none) := by
  refine ⟨?_, ?_, rfl⟩ <;>
    simp [TransferBuffer.map, BufferMemMap.memSliceLen,
      BufferMemMap.memMutSliceLen, rustUsizeDiv, Nat.pos_iff_ne_zero.mp h]

/-- Witness for C8's amended theorem: a 256-byte transfer buffer mapped as
4-byte elements exposes 64 of them. -/
theorem c8_witness :
    ((TransferBuffer.map { raw := 2, len := 256 } 9).memSliceLen 4
        = some (256 / 4)) ∧
    ((TransferBuffer.map { raw := 2, len := 256 } 9).memMutSliceLen 4
        = some (256 / 4)) ∧
    ((TransferBuffer.map { raw := 2, len := 256 } 9).memSliceLen 0 = none) :=
  c8_slice_len_is_len_div_size { raw := 2, len := 256 } 9 4 (by decide)

/-- C9: whenever `BufferBuilder::build` (resp.
`TransferBufferBuilder::build`) succeeds after `with_size s`, the returned
handle's `len()` is exactly `s`: the requested byte size is stored in the
handle unchanged, whatever the usage flags. -/
theorem c9_build_stores_requested_size (u s u' s' : Nat)
    (native native' : Option Nat) (buf : Buffer) (tbuf : TransferBuffer)
    (hb : ((create_buffer.with_usage u).with_size s).build native
      = .ok buf)
    (ht : ((create_transfer_buffer.with_usage u').with_size s').build native'
      = .ok tbuf) :
    buf.len = s ∧ tbuf.len = s' := by
  constructor
  · cases native with
    | none => simp [BufferBuilder.build] at hb
    | some raw =>
      simp only [BufferBuilder.build] at hb
      cases hb
      rfl
  · cases native' with
    | none => simp [TransferBufferBuilder.build] at ht
    | some raw =>
      simp only [TransferBufferBuilder.build] at ht
      cases ht
      rfl

/-- Witness for C9 at concrete inputs: a 256-byte vertex buffer and a
64-byte transfer buffer, both with a successful native create call. -/
theorem c9_witness :
    ({ raw := 11, len := 256 } : Buffer).len = 256 ∧
    ({ raw := 12, len := 64 } : TransferBuffer).len = 64 :=
  c9_build_stores_requested_size 0 256 0 64 (some 11) (some 12)
    { raw := 11, len := 256 } { raw := 12, len := 64 } rfl rfl

/-- C10: the generated `BitOr` for `ShaderFormat` computes
`Dxbc as u32 | Dxil as u32 = 4 | 8 = 12`, and `12` is not a declared
discriminant of `ShaderFormat` — the transmute back to the enum
reinterprets an integer outside the declared variants, so the claimed
closure property fails on this input (an undefined-behaviour bug in the
`enum_ops` operators). -/
theorem c10_bitor_escapes_declared_discriminants :
    ShaderFormat.bitorBits ShaderFormat.Dxbc ShaderFormat.Dxil = 12 ∧
    (12 : Nat) ∉ shaderFormatDiscriminants ∧
    (∀ v : ShaderFormat, v.toU32 ∈ shaderFormatDiscriminants) := by
  refine ⟨rfl, by decide, ?_⟩
  intro v
  cases v <;> decide

end Sdl3Gpu
